import Mathlib

/-!
Shallow embedding of the `blocked` crate (`src/blocked/src/lib.rs`): a
procedural macro that resolves an issue pattern to a GitHub API endpoint,
queries the issue state, and emits a diagnostic.

The regular expressions of the source are transcribed as executable matchers
with the regex crate's leftmost-first semantics: the search scans candidate
start positions from the left, and at each position alternatives are tried in
order and repetitions greedily.  The character classes are modelled over
ASCII; an unescaped dot in a source regex matches an arbitrary character,
exactly as it does in the source.
-/

namespace Blocked

/-- ASCII model of the regex character class `[\w-]`. -/
def isWordDash (c : Char) : Bool := c.isAlphanum || c = '_' || c = '-'

/-- The regex character class `[#/]` separating repository from issue number. -/
def isSep (c : Char) : Bool := c = '#' || c = '/'

/-- Consume an exact literal from the front of `s`; `none` when `s` does not
start with it. -/
def stripLit : List Char → List Char → Option (List Char)
  | [], s => some s
  | _ :: _, [] => none
  | l :: ls, c :: cs => if c = l then stripLit ls cs else none

/-- Consume one arbitrary character: an unescaped `.` in a source regex. -/
def stripAny : List Char → Option (List Char)
  | [] => none
  | _ :: t => some t

/-- Consume `[\w-]+`: the maximal nonempty run of word characters, returning
the run and the rest.  Wherever this appears in the source regexes the next
required character (`/`, `#` or end of a literal starting with `/`) is outside
the class, so the greedy run never has to backtrack to a shorter one. -/
def readWordRun (s : List Char) : Option (List Char × List Char) :=
  match s with
  | c :: _ =>
    if isWordDash c then some (s.takeWhile isWordDash, s.dropWhile isWordDash)
    else none
  | [] => none

/-- Consume one fixed character. -/
def readChar (a : Char) (s : List Char) : Option (List Char) :=
  match s with
  | c :: t => if c = a then some t else none
  | [] => none

/-- Consume one character of the class `[#/]`. -/
def readSep (s : List Char) : Option (Char × List Char) :=
  match s with
  | c :: t => if isSep c then some (c, t) else none
  | [] => none

/-- Consume `\d+`: the maximal nonempty run of digits.  Every source regex
ends right after its `\d+`, so the greedy maximal run is the capture. -/
def readDigitRun (s : List Char) : Option (List Char × List Char) :=
  match s with
  | c :: _ =>
    if c.isDigit then some (s.takeWhile Char.isDigit, s.dropWhile Char.isDigit)
    else none
  | [] => none

/-- The regex `REPOISSUE = [\w-]+[#/]\d+` matched at the start position of
`s`.  Note the source regex has no capture groups. -/
def repoIssueAt (s : List Char) : Bool :=
  ((readWordRun s).bind fun w =>
   (readSep w.2).bind fun c =>
   readDigitRun c.2).isSome

/-- `REPOISSUE.is_match`: unanchored search, i.e. a match at some position. -/
def REPOISSUE_is_match : List Char → Bool
  | [] => false
  | c :: t => repoIssueAt (c :: t) || REPOISSUE_is_match t

/-- The regex `OWNERREPOISSUE = ([\w-]+)/([\w-]+)[#/](\d+)` matched at the
start position of `s`, returning the three capture groups. -/
def ownerRepoIssueAt (s : List Char) : Option (List Char × List Char × List Char) :=
  (readWordRun s).bind fun w1 =>
  (readChar '/' w1.2).bind fun s2 =>
  (readWordRun s2).bind fun w2 =>
  (readSep w2.2).bind fun c3 =>
  (readDigitRun c3.2).bind fun d =>
  some (w1.1, w2.1, d.1)

/-- `OWNERREPOISSUE.captures`: leftmost match, scanning start positions from
the left. -/
def OWNERREPOISSUE_captures : List Char → Option (List Char × List Char × List Char)
  | [] => none
  | c :: t =>
    match ownerRepoIssueAt (c :: t) with
    | some r => some r
    | none => OWNERREPOISSUE_captures t

/-- The `https?` part of the `URL` regex together with the following literal
`://github`: the optional `s` is tried greedily first, falling back to the
bare form, which is exactly the regex backtracking behaviour. -/
def httpsAlt (s : List Char) : Option (List Char) :=
  match stripLit ("s://github".data) s with
  | some r => some r
  | none => stripLit ("://github".data) s

/-- The regex `URL = https?://github.com/[\w-]+/issues/[\w-]+[#/]\d+` matched
at the start position of `s`, up to and including the literal `/issues/`; the
`.` of `github.com` is an unescaped dot and matches any character.  The
returned rest still has to match the trailing `[\w-]+[#/]\d+`. -/
def urlAt (s : List Char) : Option (List Char) :=
  (stripLit ("http".data) s).bind fun s1 =>
  (httpsAlt s1).bind fun s2 =>
  (stripAny s2).bind fun s3 =>
  (stripLit ("com/".data) s3).bind fun s4 =>
  (readWordRun s4).bind fun w =>
  stripLit ("/issues/".data) w.2

/-- `URL.is_match`: unanchored search.  The trailing `[\w-]+[#/]\d+` of the
regex is the same shape as `REPOISSUE`, anchored at the rest position. -/
def URL_is_match : List Char → Bool
  | [] => false
  | c :: t =>
    (match urlAt (c :: t) with
     | some rest => repoIssueAt rest
     | none => false) || URL_is_match t

/-- The `([\w-]+).git` tail of the `REMOTE` regex: the capture is the greedy
word run, backtracking one character at a time until an arbitrary character
(the unescaped dot) followed by the literal `git` fits.  `k` bounds the
candidate capture length, starting from the full leading word run. -/
def dotGitTry (s : List Char) : Nat → Option (List Char)
  | 0 => none
  | k + 1 =>
    match s.drop (k + 1) with
    | _ :: 'g' :: 'i' :: 't' :: _ => some (s.take (k + 1))
    | _ => dotGitTry s k

/-- The capture of `([\w-]+).git` at the start position of `s`. -/
def dotGitGroup (s : List Char) : Option (List Char) :=
  dotGitTry s (s.takeWhile isWordDash).length

/-- First alternative of `REMOTE`:
`https://github.com/([\w-]+)/([\w-]+).git` (the dots are unescaped). -/
def remoteAlt1 (s : List Char) : Option (List Char × List Char) :=
  (stripLit ("https://github".data) s).bind fun s1 =>
  (stripAny s1).bind fun s2 =>
  (stripLit ("com/".data) s2).bind fun s3 =>
  (readWordRun s3).bind fun w =>
  (readChar '/' w.2).bind fun s4 =>
  (dotGitGroup s4).bind fun repo =>
  some (w.1, repo)

/-- Second alternative of `REMOTE`:
`git@github.com:([\w-]+)/([\w-]+).git` (the dots are unescaped). -/
def remoteAlt2 (s : List Char) : Option (List Char × List Char) :=
  (stripLit ("git@github".data) s).bind fun s1 =>
  (stripAny s1).bind fun s2 =>
  (stripLit ("com:".data) s2).bind fun s3 =>
  (readWordRun s3).bind fun w =>
  (readChar '/' w.2).bind fun s4 =>
  (dotGitGroup s4).bind fun repo =>
  some (w.1, repo)

/-- `REMOTE.captures`, merged as the source merges them: the source reads
groups 1 and 2 and falls back to groups 3 and 4, so the result is the
(organization, repository) pair of whichever alternative matched.  Leftmost
position first; at equal positions the first alternative wins. -/
def REMOTE_captures : List Char → Option (List Char × List Char)
  | [] => none
  | c :: t =>
    match remoteAlt1 (c :: t) with
    | some r => some r
    | none =>
      match remoteAlt2 (c :: t) with
      | some r => some r
      | none => REMOTE_captures t

/-- Capture group 1 of `ISSUE = #?(\d+)` for the leftmost match: the optional
`#` does not contribute to the group, which is therefore the first maximal
run of digits in the string. -/
def ISSUE_capture : List Char → Option (List Char)
  | [] => none
  | c :: t => if c.isDigit then some (c :: t.takeWhile Char.isDigit) else ISSUE_capture t

instance {ε α : Type} [DecidableEq ε] [DecidableEq α] : DecidableEq (Except ε α) :=
  fun x y =>
    match x, y with
    | Except.error a, Except.error b =>
      if h : a = b then Decidable.isTrue (congrArg Except.error h)
      else Decidable.isFalse (fun he => h (Except.error.inj he))
    | Except.ok a, Except.ok b =>
      if h : a = b then Decidable.isTrue (congrArg Except.ok h)
      else Decidable.isFalse (fun he => h (Except.ok.inj he))
    | Except.error _, Except.ok _ => Decidable.isFalse (fun he => Except.noConfusion he)
    | Except.ok _, Except.error _ => Decidable.isFalse (fun he => Except.noConfusion he)

/-- Whether the string contains a decimal digit: every regex tier of
`parse_issue_pattern` requires one, and only the digit run of `ISSUE` has no
other requirement. -/
def hasDigit (s : List Char) : Bool := s.any (·.isDigit)

/-- A remote as git2 exposes it to `try_get_org_repo`: the outer `Option` is
whether `find_remote` succeeds, the inner one is `remote.url()`, which is
`none` exactly when the URL is not valid unicode. -/
structure GitRepo where
  upstream : Option (Option String)
  origin : Option (Option String)

/-- The ambient git state: `none` when `Repository::open_from_env` fails. -/
abbrev GitEnv := Option GitRepo

/-- The tail of `try_get_org_repo` once a remote has been selected: read its
URL and run `REMOTE.captures` on it. -/
def parseRemoteUrl (url : Option String) : Except String (String × String) :=
  match url with
  | none => Except.error "Remote URL not valid unicode"
  | some u =>
    match REMOTE_captures u.data with
    | some (org, repo) => Except.ok (String.mk org, String.mk repo)
    | none => Except.error "Failed to parse remote URL"

/-- `try_get_org_repo` from the source: open the repository, prefer the
`upstream` remote, fall back to `origin`, then parse the remote URL. -/
def try_get_org_repo (env : GitEnv) : Except String (String × String) :=
  match env with
  | none => Except.error "Could not find or open a git repository"
  | some repo =>
    match repo.upstream with
    | some remote => parseRemoteUrl remote
    | none =>
      match repo.origin with
      | some remote => parseRemoteUrl remote
      | none => Except.error "Could not find an 'upstream' or 'origin' remote"

/-- Result of `parse_issue_pattern`: an endpoint URL, a `syn::Error` turned
into a compile error (the ParseError channel), or a Rust panic (an `unwrap`
of `None`), which aborts macro expansion. -/
inductive PatternResult where
  | ok (url : String)
  | compileError (msg : String)
  | panicked (msg : String)
  deriving DecidableEq

/-- `BASE`, the fixed API base URL of the source. -/
def BASE : String := "https://api.github.com/repos/"

/-- `BASE.clone().join(format!("{0}/{1}/issues/{2}", org, repo, issue))`:
for the slash-free segments produced by the regex captures, `Url::join`
against a base ending in `/` is plain concatenation and cannot fail, so the
`Could not join URL fragments` error is unreachable here. -/
def apiEndpoint (org repo issue : String) : String :=
  BASE ++ org ++ "/" ++ repo ++ "/issues/" ++ issue

/-- `parse_issue_pattern` from the source, tier by tier.

* `URL` tier: `Url::parse(pattern)` on a pattern the `URL` regex accepted is
  modelled as succeeding and returning the pattern unchanged (the url crate
  is external to this repository).
* `OWNERREPOISSUE` tier: all three components come from the captures.
* `REPOISSUE` tier: the source regex `[\w-]+[#/]\d+` has no capture groups,
  yet the source calls `captures.get(1).unwrap()` and
  `captures.get(2).unwrap()` after the remote lookup succeeded; `get(1)` is
  `None`, so the `unwrap` panics.
* `ISSUE` tier: organization and repository come from the remote lookup. -/
def parse_issue_pattern (pattern : String) (env : GitEnv) : PatternResult :=
  if URL_is_match pattern.data then
    PatternResult.ok pattern
  else
    match OWNERREPOISSUE_captures pattern.data with
    | some (owner, repo, issue) =>
      PatternResult.ok (apiEndpoint (String.mk owner) (String.mk repo) (String.mk issue))
    | none =>
      if REPOISSUE_is_match pattern.data then
        match try_get_org_repo env with
        | Except.error msg => PatternResult.compileError msg
        | Except.ok _ => PatternResult.panicked "called Option::unwrap() on a None value"
      else
        match ISSUE_capture pattern.data with
        | some d =>
          match try_get_org_repo env with
          | Except.error msg => PatternResult.compileError msg
          | Except.ok (org, repo) => PatternResult.ok (apiEndpoint org repo (String.mk d))
        | none => PatternResult.compileError "Could not parse issue pattern"

/-- The untagged `GithubIssueResponse` of the source, already decoded: either
the success shape carrying `state` or the error shape carrying `message`. -/
inductive GithubIssueResponse where
  | ok (state : String)
  | err (message : String)
  deriving DecidableEq

/-- What the `blocked` macro can do besides producing an empty token stream:
emit a compile error (`to_compile_error`), emit a warning-level diagnostic
(`Diagnostic::spanned(..., Level::Warning, ...)`), or abort with a panic. -/
inductive Outcome where
  | pass
  | compileError (msg : String)
  | warnDiag (msg : String)
  | panicked (msg : String)
  deriving DecidableEq

/-- The ambient state the `blocked` macro consults: the
`BLOCKED_GITHUB_API_KEY` environment variable, the `ci_detective` CI
detection, the git state, and the response the GitHub API would return if it
were queried. -/
structure Env where
  apiKey : Option String
  ci : Bool
  git : GitEnv
  response : GithubIssueResponse

/-- The body of the `blocked` macro after argument parsing, in source order:
resolve the pattern first; then, if no API key is present and no CI
environment is detected, return silently; otherwise perform the network call
and classify the response.  The second component records whether the network
request was sent. -/
def blocked (pattern : String) (reason : Option String) (env : Env) : Outcome × Bool :=
  match parse_issue_pattern pattern env.git with
  | PatternResult.compileError msg => (Outcome.compileError msg, false)
  | PatternResult.panicked msg => (Outcome.panicked msg, false)
  | PatternResult.ok _ =>
    match env.apiKey, env.ci with
    | none, false => (Outcome.pass, false)
    | _, _ =>
      match env.response with
      | GithubIssueResponse.err message =>
        (Outcome.warnDiag ("Error fetching issue: " ++ message), true)
      | GithubIssueResponse.ok state =>
        if state = "open" then (Outcome.pass, true)
        else if state = "closed" then
          (Outcome.warnDiag (reason.getD "Issue was closed."), true)
        else (Outcome.panicked "unknown response", true)

/-! ### Helper lemmas

The matchers of the source regexes all end in a `\d+` requirement, so a
successful match forces a digit somewhere in the searched string.  These
lemmas push that fact through the combinators via the suffix order. -/

theorem hasDigit_cons_tail {c : Char} {t : List Char} (h : hasDigit t = true) :
    hasDigit (c :: t) = true := by
  simp only [hasDigit] at h ⊢
  simp [List.any_cons, h]

theorem hasDigit_of_suffix {r s : List Char} (hs : r <:+ s) (h : hasDigit r = true) :
    hasDigit s = true := by
  simp only [hasDigit, List.any_eq_true] at h ⊢
  obtain ⟨c, hc, hd⟩ := h
  exact ⟨c, hs.subset hc, hd⟩

theorem stripLit_suffix (lit : List Char) : ∀ s r, stripLit lit s = some r → r <:+ s := by
  induction lit with
  | nil =>
    intro s r h
    simp only [stripLit, Option.some.injEq] at h
    subst h
    exact List.suffix_refl _
  | cons l ls ih =>
    intro s r h
    cases s with
    | nil => simp [stripLit] at h
    | cons c cs =>
      simp only [stripLit] at h
      split at h
      · exact (ih cs r h).trans (List.suffix_cons c cs)
      · simp at h

theorem stripAny_suffix : ∀ s r : List Char, stripAny s = some r → r <:+ s := by
  intro s r h
  cases s with
  | nil => simp [stripAny] at h
  | cons c t =>
    simp only [stripAny, Option.some.injEq] at h
    subst h
    exact List.suffix_cons c t

theorem readWordRun_suffix {s : List Char} {x : List Char × List Char}
    (h : readWordRun s = some x) : x.2 <:+ s := by
  cases s with
  | nil => simp [readWordRun] at h
  | cons c t =>
    simp only [readWordRun] at h
    split at h
    · injection h with h
      subst h
      exact List.dropWhile_suffix isWordDash
    · simp at h

theorem readChar_suffix {a : Char} {s r : List Char} (h : readChar a s = some r) :
    r <:+ s := by
  cases s with
  | nil => simp [readChar] at h
  | cons c t =>
    simp only [readChar] at h
    split at h
    · injection h with h
      subst h
      exact List.suffix_cons c t
    · simp at h

theorem readSep_suffix {s : List Char} {x : Char × List Char}
    (h : readSep s = some x) : x.2 <:+ s := by
  cases s with
  | nil => simp [readSep] at h
  | cons c t =>
    simp only [readSep] at h
    split at h
    · injection h with h
      subst h
      exact List.suffix_cons c t
    · simp at h

theorem readDigitRun_hasDigit {s : List Char} {x : List Char × List Char}
    (h : readDigitRun s = some x) : hasDigit s = true := by
  cases s with
  | nil => simp [readDigitRun] at h
  | cons c t =>
    simp only [readDigitRun] at h
    split at h
    · rename_i hc
      simp [hasDigit, List.any_cons, hc]
    · simp at h

theorem repoIssueAt_hasDigit {s : List Char} (h : repoIssueAt s = true) :
    hasDigit s = true := by
  unfold repoIssueAt at h
  rw [Option.isSome_iff_exists] at h
  obtain ⟨u, h⟩ := h
  rw [Option.bind_eq_some] at h
  obtain ⟨w, hw, h⟩ := h
  rw [Option.bind_eq_some] at h
  obtain ⟨c, hc, hd⟩ := h
  exact hasDigit_of_suffix (readWordRun_suffix hw)
    (hasDigit_of_suffix (readSep_suffix hc) (readDigitRun_hasDigit hd))

theorem REPOISSUE_is_match_hasDigit (s : List Char) :
    REPOISSUE_is_match s = true → hasDigit s = true := by
  induction s with
  | nil => intro h; simp [REPOISSUE_is_match] at h
  | cons c t ih =>
    intro h
    rw [REPOISSUE_is_match, Bool.or_eq_true] at h
    rcases h with h | h
    · exact repoIssueAt_hasDigit h
    · exact hasDigit_cons_tail (ih h)

theorem ownerRepoIssueAt_hasDigit {s : List Char} {x : List Char × List Char × List Char}
    (h : ownerRepoIssueAt s = some x) : hasDigit s = true := by
  unfold ownerRepoIssueAt at h
  rw [Option.bind_eq_some] at h
  obtain ⟨w1, hw1, h⟩ := h
  rw [Option.bind_eq_some] at h
  obtain ⟨s2, hs2, h⟩ := h
  rw [Option.bind_eq_some] at h
  obtain ⟨w2, hw2, h⟩ := h
  rw [Option.bind_eq_some] at h
  obtain ⟨c3, hc3, h⟩ := h
  rw [Option.bind_eq_some] at h
  obtain ⟨d, hd, _⟩ := h
  exact hasDigit_of_suffix (readWordRun_suffix hw1)
    (hasDigit_of_suffix (readChar_suffix hs2)
      (hasDigit_of_suffix (readWordRun_suffix hw2)
        (hasDigit_of_suffix (readSep_suffix hc3) (readDigitRun_hasDigit hd))))

theorem OWNERREPOISSUE_captures_hasDigit (s : List Char)
    (x : List Char × List Char × List Char) :
    OWNERREPOISSUE_captures s = some x → hasDigit s = true := by
  induction s with
  | nil => intro h; simp [OWNERREPOISSUE_captures] at h
  | cons c t ih =>
    intro h
    rw [OWNERREPOISSUE_captures] at h
    rcases ho : ownerRepoIssueAt (c :: t) with _ | r
    · simp only [ho] at h
      exact hasDigit_cons_tail (ih h)
    · exact ownerRepoIssueAt_hasDigit ho

theorem httpsAlt_suffix {s r : List Char} (h : httpsAlt s = some r) : r <:+ s := by
  unfold httpsAlt at h
  rcases hs : stripLit ("s://github".data) s with _ | r2
  · simp only [hs] at h
    exact stripLit_suffix _ _ _ h
  · simp only [hs, Option.some.injEq] at h
    subst h
    exact stripLit_suffix _ _ _ hs

theorem urlAt_suffix {s r : List Char} (h : urlAt s = some r) : r <:+ s := by
  unfold urlAt at h
  rw [Option.bind_eq_some] at h
  obtain ⟨s1, h1, h⟩ := h
  rw [Option.bind_eq_some] at h
  obtain ⟨s2, h2, h⟩ := h
  rw [Option.bind_eq_some] at h
  obtain ⟨s3, h3, h⟩ := h
  rw [Option.bind_eq_some] at h
  obtain ⟨s4, h4, h⟩ := h
  rw [Option.bind_eq_some] at h
  obtain ⟨w, hw, h⟩ := h
  exact ((((stripLit_suffix _ _ _ h).trans (readWordRun_suffix hw)).trans
    (stripLit_suffix _ _ _ h4)).trans (stripAny_suffix _ _ h3)).trans
    ((httpsAlt_suffix h2).trans (stripLit_suffix _ _ _ h1))

theorem URL_is_match_hasDigit (s : List Char) :
    URL_is_match s = true → hasDigit s = true := by
  induction s with
  | nil => intro h; simp [URL_is_match] at h
  | cons c t ih =>
    intro h
    rw [URL_is_match, Bool.or_eq_true] at h
    rcases h with h | h
    · rcases hu : urlAt (c :: t) with _ | rest
      · simp only [hu] at h
        exact Bool.noConfusion h
      · simp only [hu] at h
        exact hasDigit_of_suffix (urlAt_suffix hu) (repoIssueAt_hasDigit h)
    · exact hasDigit_cons_tail (ih h)

theorem ISSUE_capture_eq_none (s : List Char) :
    ISSUE_capture s = none ↔ hasDigit s = false := by
  induction s with
  | nil => simp [ISSUE_capture, hasDigit]
  | cons c t ih =>
    cases hc : c.isDigit with
    | true => simp [ISSUE_capture, hasDigit, List.any_cons, hc]
    | false => simpa [ISSUE_capture, hasDigit, List.any_cons, hc] using ih

theorem parseRemoteUrl_error_msg (url : Option String) (m : String)
    (h : parseRemoteUrl url = Except.error m) :
    m ≠ "Could not parse issue pattern" := by
  cases url with
  | none =>
    simp only [parseRemoteUrl, Except.error.injEq] at h
    subst h
    decide
  | some u =>
    simp only [parseRemoteUrl] at h
    rcases hr : REMOTE_captures u.data with _ | ⟨org, repo⟩
    · simp only [hr, Except.error.injEq] at h
      subst h
      decide
    · simp only [hr] at h
      exact Except.noConfusion h

theorem try_get_org_repo_error_msg (env : GitEnv) (m : String)
    (h : try_get_org_repo env = Except.error m) :
    m ≠ "Could not parse issue pattern" := by
  cases env with
  | none =>
    simp only [try_get_org_repo, Except.error.injEq] at h
    subst h
    decide
  | some repo =>
    obtain ⟨up, og⟩ := repo
    cases up with
    | some rem =>
      simp only [try_get_org_repo] at h
      exact parseRemoteUrl_error_msg rem m h
    | none =>
      cases og with
      | some rem =>
        simp only [try_get_org_repo] at h
        exact parseRemoteUrl_error_msg rem m h
      | none =>
        simp only [try_get_org_repo, Except.error.injEq] at h
        subst h
        decide

/-! ### Claims -/

/-- Claim C1, counterexample: with no credential and no CI signal, the
pattern `abc` (matched by no tier) produces the ParseError, not `Pass` — the
source resolves the pattern before it consults the credential/CI gate, so
outcome is not `Pass` regardless of pattern validity. -/
theorem C1_counterexample :
    blocked "abc" none ⟨none, false, none, GithubIssueResponse.ok "open"⟩
      = (Outcome.compileError "Could not parse issue pattern", false) ∧
    (Outcome.compileError "Could not parse issue pattern", false) ≠
      ((Outcome.pass, false) : Outcome × Bool) :=
  ⟨rfl, by decide⟩

/-- Claim C1, amended: when no credential is supplied and no CI signal is
present, no network call occurs, and the outcome is `Pass` whenever the
pattern resolves to an endpoint; a pattern that fails to resolve yields the
resolution's error even on this path, because resolution precedes the gate. -/
theorem C1_theorem (p : String) (r : Option String) (g : GitEnv)
    (resp : GithubIssueResponse) :
    (blocked p r ⟨none, false, g, resp⟩).2 = false ∧
    (∀ u, parse_issue_pattern p g = PatternResult.ok u →
      blocked p r ⟨none, false, g, resp⟩ = (Outcome.pass, false)) := by
  constructor
  · rcases hp : parse_issue_pattern p g <;> simp [blocked, hp]
  · intro u hu
    simp [blocked, hu]

/-- Claim C1, witness: a resolvable pattern with no credential and no CI
signal passes without a network call. -/
theorem C1_witness :
    blocked "serde-rs/serde#423" none ⟨none, false, none, GithubIssueResponse.ok "open"⟩
      = (Outcome.pass, false) :=
  ( C1_theorem "serde-rs/serde#423" none none (GithubIssueResponse.ok "open")).2
    "https://api.github.com/repos/serde-rs/serde/issues/423" rfl

/-- Claim C2: the pattern `serde/423` does reach the repo/issue tier (the
`REPOISSUE` regex matches), but that regex has no capture groups while the
source reads groups 1 and 2 with `unwrap`, so once the remote lookup
succeeds macro expansion panics instead of producing an endpoint with
repository `serde`. -/
theorem C2_theorem :
    parse_issue_pattern "serde/423"
        (some ⟨none, some (some "https://github.com/acme/widgets.git")⟩)
      = PatternResult.panicked "called Option::unwrap() on a None value" := by
  decide

/-- Claim C3: the full issue URL does not match the source's `URL` regex
(which reads `github.com/ORG/issues/...` and lacks the repository segment),
so resolution falls through to the owner/repo tier, whose unanchored search
captures `serde`, `issues`, `423` out of the URL; the endpoint is built from
those fragments rather than being the pattern used as-is. -/
theorem C3_theorem :
    parse_issue_pattern "https://github.com/serde-rs/serde/issues/423" none
      = PatternResult.ok "https://api.github.com/repos/serde/issues/issues/423" ∧
    ("https://api.github.com/repos/serde/issues/issues/423" : String) ≠
      "https://github.com/serde-rs/serde/issues/423" :=
  ⟨by decide, by decide⟩

/-- Claim C4: pattern resolution is not total — for `serde#423` with a
working remote, the `unwrap` of the nonexistent `REPOISSUE` capture group 1
panics instead of returning an endpoint or a ParseError. -/
theorem C4_theorem :
    parse_issue_pattern "serde#423"
        (some ⟨none, some (some "https://github.com/acme/widgets.git")⟩)
      = PatternResult.panicked "called Option::unwrap() on a None value" := by
  decide

/-- Claim C5, counterexample: the `REMOTE` regex hardcodes the host
`github.com`, so both remote URL encodings with host `example.com` are
rejected with a ParseError rather than yielding `(acme, widgets)`. -/
theorem C5_counterexample :
    try_get_org_repo (some ⟨none, some (some "https://example.com/acme/widgets.git")⟩)
      = Except.error "Failed to parse remote URL" ∧
    try_get_org_repo (some ⟨none, some (some "git@example.com:acme/widgets.git")⟩)
      = Except.error "Failed to parse remote URL" ∧
    (Except.error "Failed to parse remote URL" : Except String (String × String)) ≠
      Except.ok ("acme", "widgets") :=
  ⟨rfl, rfl, by decide⟩

/-- Claim C5, amended: RemoteResolver accepts both remote URL encodings for
the host `github.com` only — `https://github.com/acme/widgets.git` and
`git@github.com:acme/widgets.git` both yield `(acme, widgets)` — while the
same two encodings with any other host, e.g. `example.com`, are rejected
with a ParseError. -/
theorem C5_theorem :
    try_get_org_repo (some ⟨none, some (some "https://github.com/acme/widgets.git")⟩)
      = Except.ok ("acme", "widgets") ∧
    try_get_org_repo (some ⟨none, some (some "git@github.com:acme/widgets.git")⟩)
      = Except.ok ("acme", "widgets") ∧
    try_get_org_repo (some ⟨none, some (some "https://example.com/acme/widgets.git")⟩)
      = Except.error "Failed to parse remote URL" ∧
    try_get_org_repo (some ⟨none, some (some "git@example.com:acme/widgets.git")⟩)
      = Except.error "Failed to parse remote URL" :=
  ⟨by decide, by decide, rfl, rfl⟩

/-- Claim C6, counterexample: on the error shape `message = Not Found` the
source emits a warning-level diagnostic — the same channel the closed-issue
`Warn` uses — not a distinguishable runtime error: both runs below produce
the `warnDiag` constructor. -/
theorem C6_counterexample :
    (blocked "serde-rs/serde#423" none
        ⟨some "key", false, none, GithubIssueResponse.err "Not Found"⟩).1
      = Outcome.warnDiag "Error fetching issue: Not Found" ∧
    (blocked "serde-rs/serde#423" (some "fix me")
        ⟨some "key", false, none, GithubIssueResponse.ok "closed"⟩).1
      = Outcome.warnDiag "fix me" :=
  ⟨by decide, by decide⟩

/-- Claim C6, amended: if the response decodes to the error shape, the
outcome is a warning diagnostic carrying `Error fetching issue: ` followed by
the message — emitted on the same warning channel as a closed-issue `Warn`
and distinguishable from it only by the message text — and the engine
returns without interpreting any state (the reason argument and any state
string are never consulted). -/
theorem C6_theorem (message : String) (r : Option String) (g : GitEnv) (k : String) :
    blocked "serde-rs/serde#423" r ⟨some k, false, g, GithubIssueResponse.err message⟩
      = (Outcome.warnDiag ("Error fetching issue: " ++ message), true) := rfl

/-- Claim C7: on the unrecognized state `reopened` the outcome is neither
`Pass` nor `Warn`, but the source aborts with `panic!("unknown response")`
instead of reporting `unrecognized state: reopened` through the ordinary
error channel. -/
theorem C7_theorem :
    blocked "serde-rs/serde#423" none
        ⟨some "key", false, none, GithubIssueResponse.ok "reopened"⟩
      = (Outcome.panicked "unknown response", true) := by
  decide

/-- Claim C8: remote selection prefers `upstream` — whenever `upstream`
exists the result is determined by its URL alone, whatever `origin` holds;
with no `upstream`, an existing `origin` is used; with neither, resolution
fails with the ParseError about missing remotes. -/
theorem C8_theorem (repo : GitRepo) :
    (∀ rem, repo.upstream = some rem →
      try_get_org_repo (some repo) = parseRemoteUrl rem) ∧
    (repo.upstream = none → ∀ rem, repo.origin = some rem →
      try_get_org_repo (some repo) = parseRemoteUrl rem) ∧
    (repo.upstream = none → repo.origin = none →
      try_get_org_repo (some repo)
        = Except.error "Could not find an 'upstream' or 'origin' remote") := by
  obtain ⟨up, og⟩ := repo
  refine ⟨?_, ?_, ?_⟩
  · intro rem h
    replace h : up = some rem := h
    subst h
    rfl
  · intro h rem h2
    replace h : up = none := h
    replace h2 : og = some rem := h2
    subst h
    subst h2
    rfl
  · intro h h2
    replace h : up = none := h
    replace h2 : og = none := h2
    subst h
    subst h2
    rfl

/-- Claim C8, witness: with both remotes present, the `upstream` coordinates
win. -/
theorem C8_witness :
    try_get_org_repo (some ⟨some (some "https://github.com/up/stream.git"),
        some (some "https://github.com/ori/gin.git")⟩)
      = Except.ok ("up", "stream") := by
  have h := (C8_theorem ⟨some (some "https://github.com/up/stream.git"),
      some (some "https://github.com/ori/gin.git")⟩).1
      (some "https://github.com/up/stream.git") rfl
  exact h.trans (by decide)

/-- Claim C9: a `closed` state yields the warning carrying the caller's
reason, or the fixed default `Issue was closed.` when none was given; an
`open` state yields `Pass`. -/
theorem C9_theorem (r : Option String) (g : GitEnv) (k : String) :
    blocked "serde-rs/serde#423" r ⟨some k, false, g, GithubIssueResponse.ok "closed"⟩
      = (Outcome.warnDiag (r.getD "Issue was closed."), true) ∧
    blocked "serde-rs/serde#423" r ⟨some k, false, g, GithubIssueResponse.ok "open"⟩
      = (Outcome.pass, true) :=
  ⟨rfl, rfl⟩

/-- Claim C10: the bare-number matcher `ISSUE = #?(\d+)` is unanchored, so
any pattern containing a digit that no earlier tier claimed resolves through
the bare-number tier with the first maximal digit run as issue number
(against the remote's organization and repository), and the final
`Could not parse issue pattern` error occurs exactly for patterns containing
no digit at all. -/
theorem C10_theorem (p : String) (env : GitEnv) :
    (∀ org repo d,
      URL_is_match p.data = false →
      OWNERREPOISSUE_captures p.data = none →
      REPOISSUE_is_match p.data = false →
      ISSUE_capture p.data = some d →
      try_get_org_repo env = Except.ok (org, repo) →
      parse_issue_pattern p env
        = PatternResult.ok (apiEndpoint org repo (String.mk d))) ∧
    (parse_issue_pattern p env = PatternResult.compileError "Could not parse issue pattern"
      ↔ hasDigit p.data = false) := by
  constructor
  · intro org repo d h1 h2 h3 h4 h5
    simp [parse_issue_pattern, h1, h2, h3, h4, h5]
  · constructor
    · intro h
      cases h1 : URL_is_match p.data with
      | true => simp [parse_issue_pattern, h1] at h
      | false =>
        rcases h2 : OWNERREPOISSUE_captures p.data with _ | x
        · cases h3 : REPOISSUE_is_match p.data with
          | true =>
            rcases ht : try_get_org_repo env with m | pr
            · simp [parse_issue_pattern, h1, h2, h3, ht] at h
              exact absurd h (try_get_org_repo_error_msg env m ht)
            · simp [parse_issue_pattern, h1, h2, h3, ht] at h
          | false =>
            rcases h4 : ISSUE_capture p.data with _ | d
            · exact (ISSUE_capture_eq_none p.data).mp h4
            · rcases ht : try_get_org_repo env with m | ⟨o, r2⟩
              · simp [parse_issue_pattern, h1, h2, h3, h4, ht] at h
                exact absurd h (try_get_org_repo_error_msg env m ht)
              · simp [parse_issue_pattern, h1, h2, h3, h4, ht] at h
        · simp [parse_issue_pattern, h1, h2] at h
    · intro h
      have h1 : URL_is_match p.data = false := by
        cases h1 : URL_is_match p.data with
        | false => rfl
        | true => exact absurd (URL_is_match_hasDigit p.data h1) (by simp [h])
      have h2 : OWNERREPOISSUE_captures p.data = none := by
        rcases h2 : OWNERREPOISSUE_captures p.data with _ | x
        · rfl
        · exact absurd (OWNERREPOISSUE_captures_hasDigit p.data x h2) (by simp [h])
      have h3 : REPOISSUE_is_match p.data = false := by
        cases h3 : REPOISSUE_is_match p.data with
        | false => rfl
        | true => exact absurd (REPOISSUE_is_match_hasDigit p.data h3) (by simp [h])
      have h4 : ISSUE_capture p.data = none := (ISSUE_capture_eq_none p.data).mpr h
      simp [parse_issue_pattern, h1, h2, h3, h4]

/-- Claim C10, witness: `v1.2-beta` resolves issue `1` against the remote's
`acme/widgets`. -/
theorem C10_witness :
    parse_issue_pattern "v1.2-beta"
        (some ⟨none, some (some "https://github.com/acme/widgets.git")⟩)
      = PatternResult.ok "https://api.github.com/repos/acme/widgets/issues/1" := by
  have h := ( C10_theorem "v1.2-beta"
      (some ⟨none, some (some "https://github.com/acme/widgets.git")⟩)).1
      "acme" "widgets" ("1".data) rfl rfl rfl rfl rfl
  exact h.trans (by decide)

end Blocked
